import Mathlib

/-!
Verification development for the ShivAI core engine
(`shivai/core_engine/task_queue.py` and `shivai/core_engine/plugin_loader.py`).

The Python source is embedded shallowly:

* `Task`, `TaskResult` mirror the dataclasses of `task_queue.py`; the
  dataclass ordering (`order=True`) compares exactly the `compare=True`
  fields `(priority, created_at)` in declaration order, which is embedded
  as `taskLTb`.  Float timestamps are embedded as rationals.
* Python's `queue.PriorityQueue` delegates to `heapq.heappush` /
  `heapq.heappop`; those two functions (and their helpers `_siftdown`,
  `_siftup`) are embedded verbatim on lists.
* The scheduler's mutable state (`queue`, `pending_tasks`,
  `completed_tasks`, the task a worker currently executes, and the
  externally observable callback / sleep events) is `QState`; the worker
  body is split into `workerTake` (the `queue.get`) and `workerFinish`
  (the rest of the loop body), so that interleavings of `cancel_task`
  with a running execution can be expressed.
* The work function of a task is embedded as `func : ℕ → Except String ℕ`,
  mapping the attempt index (the task's `retry_count` at call time) to
  either a returned value or a raised exception, since retries may change
  the outcome of the underlying callable.  The `timeout` execution path
  (`_execute_with_timeout`) is not exercised by any property below and is
  not modelled.
* The plugin loader's state (`manifests`, `plugins` insertion-ordered
  dicts) is `LoaderState`; dynamic import and instantiation are embedded
  as an environment `classes : String → Option PluginClass` describing,
  for each implementation reference, whether the import succeeds and how
  instances of the class behave (`initialize` outcome, the list returned
  by `get_capabilities`, whether `shutdown` raises).
-/

/-! ### Association-list embedding of Python dicts (insertion ordered) -/

/-- `d[k]` lookup on an insertion-ordered dict. -/
def lookupA {α : Type} (l : List (String × α)) (k : String) : Option α :=
  match l with
  | [] => none
  | (k', v) :: rest => if k' = k then some v else lookupA rest k

/-- `d[k] = v` on an insertion-ordered dict: overwrite in place, else append. -/
def setA {α : Type} (l : List (String × α)) (k : String) (v : α) :
    List (String × α) :=
  match l with
  | [] => [(k, v)]
  | (k', v') :: rest =>
      if k' = k then (k', v) :: rest else (k', v') :: setA rest k v

/-- `del d[k]` on an insertion-ordered dict (no-op when absent). -/
def removeA {α : Type} (l : List (String × α)) (k : String) :
    List (String × α) :=
  match l with
  | [] => []
  | (k', v') :: rest =>
      if k' = k then rest else (k', v') :: removeA rest k

/-- `lset l i x` is `l` with position `i` overwritten (in-bounds use only),
embedding `heap[i] = x`. -/
def lset {α : Type} (l : List α) (i : ℕ) (x : α) : List α :=
  match l, i with
  | [], _ => []
  | _ :: rest, 0 => x :: rest
  | y :: rest, n + 1 => y :: lset rest n x

/-! ### `task_queue.Task` and `task_queue.TaskResult` -/

namespace task_queue

/-- `TaskPriority` values (`IntEnum`, lower = higher priority). -/
def CRITICAL : ℕ := 0
def HIGH : ℕ := 1
def NORMAL : ℕ := 2
def LOW : ℕ := 3
def BACKGROUND : ℕ := 4

/-- The `Task` dataclass.  `priority` and `created_at` are the two
`compare=True` fields (in declaration order); `created_at` is filled by
`time.time()` at construction, embedded by passing the current clock
reading to `submit`.  `func` maps the attempt index (the value of
`retry_count` when the attempt starts) to the call's outcome. -/
structure Task where
  priority : ℕ
  created_at : ℚ
  task_id : String
  func : ℕ → Except String ℕ
  max_retries : ℕ
  retry_count : ℕ
  retry_delay : ℚ
  callback : Bool
  error_callback : Bool

instance : Inhabited Task :=
  ⟨⟨NORMAL, 0, "", fun _ => Except.error "", 0, 0, 1, false, false⟩⟩

/-- The `__lt__` generated by `@dataclass(order=True)`: tuple comparison of
the `compare=True` fields `(priority, created_at)`. -/
def taskLTb (a b : Task) : Bool :=
  decide (a.priority < b.priority) ||
    (decide (a.priority = b.priority) && decide (a.created_at < b.created_at))

/-- The `TaskResult` dataclass (wall-clock `execution_time` not modelled). -/
structure TaskResult where
  task_id : String
  success : Bool
  result : Option ℕ
  error : Option String
  retry_count : ℕ
deriving DecidableEq

/-! ### The CPython `heapq` functions used by `queue.PriorityQueue` -/

/-- `heapq._siftdown(heap, startpos, pos)` with `newitem = heap[pos]`
already known to the caller.  The loop strictly decreases `pos` (to
`(pos-1)/2`), so any `fuel ≥ pos` makes the recursion identical to the
source's `while` loop; `fuel` only keeps the recursion structural. -/
def siftdown (fuel : ℕ) (heap : List Task) (startpos pos : ℕ)
    (newitem : Task) : List Task :=
  match fuel with
  | 0 => lset heap pos newitem
  | fuel + 1 =>
      if startpos < pos then
        let parentpos := (pos - 1) / 2
        let parent := heap.getD parentpos default
        if taskLTb newitem parent then
          siftdown fuel (lset heap pos parent) startpos parentpos newitem
        else
          lset heap pos newitem
      else
        lset heap pos newitem

/-- `heapq._siftup(heap, pos)` with `newitem = heap[pos]` known to the
caller; `endpos` is the (constant) length of the heap.  In the source,
`childpos = 2*pos+1`, `rightpos = childpos+1`, and `childpos` is bumped to
`rightpos` when the right child exists and the left child is not smaller;
the two branches spell out the two values `childpos` can take.  The loop
strictly increases `pos` below `endpos`, so any `fuel ≥ endpos` makes the
recursion identical to the source's `while` loop. -/
def siftup (fuel endpos : ℕ) (heap : List Task) (startpos pos : ℕ)
    (newitem : Task) : List Task :=
  match fuel with
  | 0 => siftdown pos (lset heap pos newitem) startpos pos newitem
  | fuel + 1 =>
      if 2 * pos + 1 < endpos then
        if 2 * pos + 2 < endpos ∧
            taskLTb (heap.getD (2 * pos + 1) default)
              (heap.getD (2 * pos + 2) default) = false then
          siftup fuel endpos (lset heap pos (heap.getD (2 * pos + 2) default))
            startpos (2 * pos + 2) newitem
        else
          siftup fuel endpos (lset heap pos (heap.getD (2 * pos + 1) default))
            startpos (2 * pos + 1) newitem
      else
        siftdown pos (lset heap pos newitem) startpos pos newitem

/-- `heapq.heappush(heap, item)`: append, then sift down from the new
last position. -/
def heappush (heap : List Task) (item : Task) : List Task :=
  siftdown heap.length (heap ++ [item]) 0 heap.length item

/-- `heap.pop()`: the list without its last element, and that element. -/
def popLast {α : Type} : List α → Option (List α × α)
  | [] => none
  | [x] => some ([], x)
  | x :: y :: rest =>
      match popLast (y :: rest) with
      | some (l, last) => some (x :: l, last)
      | none => none

/-- `heapq.heappop(heap)`; `none` embeds the `IndexError` on an empty
heap (never reached by the worker, which only calls it on a non-empty
queue). -/
def heappop (heap : List Task) : Option (Task × List Task) :=
  match popLast heap with
  | none => none
  | some (rest, lastelt) =>
      match rest with
      | [] => some (lastelt, [])
      | _ :: _ =>
          let returnitem := rest.getD 0 default
          some (returnitem,
            siftup rest.length rest.length (lset rest 0 lastelt) 0 0 lastelt)

/-- Ids of the tasks in heap extraction order (repeated `queue.get`); the
fuel argument only bounds the number of `get` calls performed. -/
def popAll (fuel : ℕ) (heap : List Task) : List String :=
  match fuel with
  | 0 => []
  | n + 1 =>
      match heappop heap with
      | none => []
      | some (t, h') => t.task_id :: popAll n h'

/-! ### `TaskQueue` state and worker semantics -/

/-- An externally observable effect of the worker loop: a success callback
invocation (`task.callback(result.result)`), an error callback invocation
(`task.error_callback(result.error)`), or a backoff sleep
(`time.sleep(delay)`). -/
inductive Ev where
  | successCb (task_id : String) (v : Option ℕ)
  | errorCb (task_id : String) (e : Option String)
  | sleep (d : ℚ)
deriving DecidableEq

/-- The mutable state of a `TaskQueue`: the priority queue's backing heap,
`pending_tasks`, `completed_tasks`, the task a worker is currently
executing (between its `queue.get` and the end of the loop body), the
trace of observable events, and the number of invocations of a task's
`func` so far. -/
structure QState where
  heap : List Task
  pending : List (String × Task)
  completed : List (String × TaskResult)
  inFlight : Option Task
  events : List Ev
  attempts : ℕ

/-- The initial state of a fresh `TaskQueue`. -/
def initQ : QState :=
  { heap := [], pending := [], completed := [], inFlight := none,
    events := [], attempts := 0 }

/-- `TaskQueue.submit`: register the task in `pending_tasks`, then
`queue.put` it.  The task's `created_at` field was filled from
`time.time()` at construction; the caller of this embedding supplies the
clock reading inside `t`. -/
def submit (st : QState) (t : Task) : QState :=
  { st with pending := setA st.pending t.task_id t,
            heap := heappush st.heap t }

/-- `TaskQueue._execute_task` (the `timeout is None` path): run the
attempt; on success build a successful `TaskResult`; on failure, if
`retry_count < max_retries`, increment `retry_count`, compute
`delay = retry_delay * 2 ** (retry_count - 1)`, and hand back the task to
re-queue together with the slept delay; otherwise a terminal failed
result.  The intermediate result carries the already-incremented
`retry_count`, exactly as the source does. -/
def executeTask (t : Task) : TaskResult × Option (Task × ℚ) :=
  match t.func t.retry_count with
  | Except.ok v =>
      (⟨t.task_id, true, some v, none, t.retry_count⟩, none)
  | Except.error e =>
      if t.retry_count < t.max_retries then
        let rc := t.retry_count + 1
        let delay := t.retry_delay * 2 ^ (rc - 1)
        (⟨t.task_id, false, none, some e, rc⟩,
          some ({ t with retry_count := rc }, delay))
      else
        (⟨t.task_id, false, none, some e, t.retry_count⟩, none)

/-- The `task = self.queue.get(...)` step of `TaskQueue._worker`: extract
the smallest task from the heap and begin executing it.  A worker holding
a task this way has started the task, but the task is still present in
`pending_tasks`. -/
def workerTake (st : QState) : QState :=
  match heappop st.heap with
  | none => st
  | some (t, h') => { st with heap := h', inFlight := some t }

/-- The remainder of the `TaskQueue._worker` loop body on the task taken:
run `_execute_task` (whose retry path sleeps and re-queues before
returning), store the result in `completed_tasks` (overwriting), delete
the id from `pending_tasks` if still present, then fire the success or
error callback when configured. -/
def workerFinish (st : QState) : QState :=
  match st.inFlight with
  | none => st
  | some t =>
      let er := executeTask t
      let res := er.1
      let heap' := match er.2 with
        | some (t', _) => heappush st.heap t'
        | none => st.heap
      let sleeps : List Ev := match er.2 with
        | some (_, d) => [Ev.sleep d]
        | none => []
      let cbs : List Ev :=
        if res.success && t.callback then [Ev.successCb t.task_id res.result]
        else if !res.success && t.error_callback then
          [Ev.errorCb t.task_id res.error]
        else []
      { heap := heap',
        pending := removeA st.pending t.task_id,
        completed := setA st.completed t.task_id res,
        inFlight := none,
        events := st.events ++ sleeps ++ cbs,
        attempts := st.attempts + 1 }

/-- One full iteration of the (single) worker loop. -/
def workerStep (st : QState) : QState := workerFinish (workerTake st)

/-- Run the worker loop until the queue is drained or fuel runs out. -/
def runQueue : ℕ → QState → QState
  | 0, st => st
  | n + 1, st =>
      match st.heap with
      | [] => st
      | _ :: _ => runQueue n (workerStep st)

/-- `TaskQueue.cancel_task`: delete the id from `pending_tasks` and report
`True` when it was present, report `False` otherwise.  No other field of
the queue state is touched. -/
def cancel_task (st : QState) (task_id : String) : Bool × QState :=
  if (lookupA st.pending task_id).isSome then
    (true, { st with pending := removeA st.pending task_id })
  else
    (false, st)

/-- `TaskQueue.get_result`'s polling loop.  Each iteration checks
`completed_tasks`, then the elapsed-versus-timeout condition (only when a
`timeout` was passed), then sleeps `0.1`; `elapsed` advances by `1/10`
per iteration.  `fuel` bounds the number of iterations observed:
`none` means the loop did not return within `fuel` iterations, and
`some r` means it returned `r` (where `r = none` is the source's
`return None`). -/
def getResultLoop (completed : List (String × TaskResult)) (task_id : String)
    (timeout : Option ℚ) (elapsed : ℚ) :
    ℕ → Option (Option TaskResult)
  | 0 => none
  | fuel + 1 =>
      match lookupA completed task_id with
      | some r => some (some r)
      | none =>
          match timeout with
          | some tmo =>
              if elapsed ≥ tmo then some none
              else getResultLoop completed task_id timeout (elapsed + 1/10) fuel
          | none => getResultLoop completed task_id timeout (elapsed + 1/10) fuel

/-- Number of error-callback invocations in a trace. -/
def countErrorCb (evs : List Ev) : ℕ :=
  evs.countP fun e => match e with | Ev.errorCb _ _ => true | _ => false

/-- Number of success-callback invocations in a trace. -/
def countSuccessCb (evs : List Ev) : ℕ :=
  evs.countP fun e => match e with | Ev.successCb _ _ => true | _ => false

/-- The backoff sleeps of a trace, in order. -/
def sleepsOf (evs : List Ev) : List ℚ :=
  evs.filterMap fun e => match e with | Ev.sleep d => some d | _ => none

end task_queue

/-! ### `plugin_loader.py` -/

namespace plugin_loader

/-- The `PluginManifest` dataclass, with `__post_init__` already applied
(so `dependencies` and `config_schema` hold their concrete defaulted
values).  `config_schema` is an opaque string-keyed map here. -/
structure PluginManifest where
  name : String
  version : String
  description : String
  author : String
  plugin_class : String
  capabilities : List String
  dependencies : List String
  config_schema : List (String × String)
  enabled : Bool
deriving DecidableEq

/-- A loaded plugin instance: its runtime `enabled` flag (set to `True` by
`BasePlugin.__init__`), the list its `get_capabilities()` method returns,
and whether its `shutdown()` method raises when called. -/
structure PluginInstance where
  enabled : Bool
  caps : List String
  shutdownRaises : Bool
deriving DecidableEq

/-- The behaviour of a plugin implementation class, indexed by the
manifest's `plugin_class` reference: the result of `initialize()` on a
fresh instance, the `get_capabilities()` list, and whether `shutdown()`
raises.  `_import_plugin_class` returning `None` (or raising) is embedded
as the environment returning `none` for that reference. -/
structure PluginClass where
  initOk : Bool
  caps : List String
  shutdownRaises : Bool

/-- The mutable state of a `PluginLoader`: the `manifests` and `plugins`
insertion-ordered dicts (`plugin_paths` carries no behaviour that the
properties below depend on). -/
structure LoaderState where
  manifests : List (String × PluginManifest)
  plugins : List (String × PluginInstance)
deriving DecidableEq

/-- The distinguishable outcomes of `PluginLoader.load_plugin`: the source
returns `True` on the first two and `False` on the rest, logging a
distinct message on each path. -/
inductive LoadOutcome where
  | alreadyLoaded
  | ok
  | notFound
  | missingDependency
  | importFailed
  | initFailed
deriving DecidableEq

/-- `PluginLoader._check_dependencies`: `True` exactly when every listed
dependency name is currently a key of `self.plugins`. -/
def check_dependencies (st : LoaderState) (dependencies : List String) :
    Bool :=
  dependencies.all fun dep => (lookupA st.plugins dep).isSome

/-- `PluginLoader.load_plugin`: already-loaded is a no-op success; an
undiscovered name fails; then the dependency check, the dynamic import,
instantiation (`BasePlugin.__init__` sets `enabled = True`) and the
`initialize()` hook run in that order, each failure leaving the state
unchanged; on success the instance is appended to `self.plugins`. -/
def load_plugin (classes : String → Option PluginClass) (st : LoaderState)
    (plugin_name : String) : LoadOutcome × LoaderState :=
  if (lookupA st.plugins plugin_name).isSome then
    (LoadOutcome.alreadyLoaded, st)
  else
    match lookupA st.manifests plugin_name with
    | none => (LoadOutcome.notFound, st)
    | some manifest =>
        if !check_dependencies st manifest.dependencies then
          (LoadOutcome.missingDependency, st)
        else
          match classes manifest.plugin_class with
          | none => (LoadOutcome.importFailed, st)
          | some cls =>
              if !cls.initOk then
                (LoadOutcome.initFailed, st)
              else
                (LoadOutcome.ok,
                  { st with plugins := st.plugins ++
                      [(plugin_name,
                        { enabled := true, caps := cls.caps,
                          shutdownRaises := cls.shutdownRaises })] })

/-- `PluginLoader.unload_plugin`: `False` when the name is not loaded;
otherwise `shutdown()` is invoked inside the `try` block and
`del self.plugins[plugin_name]` runs after it, so an exception raised by
the hook is caught (returning `False`) with the instance still stored. -/
def unload_plugin (st : LoaderState) (plugin_name : String) :
    Bool × LoaderState :=
  match lookupA st.plugins plugin_name with
  | none => (false, st)
  | some plugin =>
      if plugin.shutdownRaises then (false, st)
      else (true, { st with plugins := removeA st.plugins plugin_name })

/-- The loop body of `PluginLoader.get_plugins_by_capability`, iterating
`self.plugins.items()` with the `matching` accumulator. -/
def matchingLoop (items : List (String × PluginInstance)) (capability : String)
    (matching : List PluginInstance) : List PluginInstance :=
  match items with
  | [] => matching
  | (_, plugin) :: rest =>
      if !plugin.enabled then matchingLoop rest capability matching
      else if capability ∈ plugin.caps then
        matchingLoop rest capability (matching ++ [plugin])
      else matchingLoop rest capability matching

/-- `PluginLoader.get_plugins_by_capability`: walk the loaded instances in
insertion (= load) order, skip disabled ones, and keep those whose
`get_capabilities()` list contains `capability`. -/
def get_plugins_by_capability (st : LoaderState) (capability : String) :
    List PluginInstance :=
  matchingLoop st.plugins capability []

/-- The spec's own wording of `providers_for(capability)` (§4.1): every
active and enabled instance whose **manifest** capability set contains the
capability, in load order.  Stated for refinement comparison with
`get_plugins_by_capability`, which is what the source computes. -/
def providers_for_spec (st : LoaderState) (capability : String) :
    List PluginInstance :=
  (st.plugins.filter fun e =>
      e.2.enabled &&
        decide (capability ∈
          ((lookupA st.manifests e.1).map PluginManifest.capabilities).getD []))
    |>.map Prod.snd

/-! ### `PluginLoader._load_manifest` and the `PluginManifest` constructor -/

/-- A parsed `manifest.json` object: which of the known keys are present,
and with what values. -/
structure ManifestData where
  name : Option String
  version : Option String
  description : Option String
  author : Option String
  plugin_class : Option String
  capabilities : Option (List String)
  dependencies : Option (List String)
  config_schema : Option (List (String × String))
  enabled : Option Bool

/-- The exceptions `_load_manifest` can raise: the explicit
`ValueError("Missing required field: ...")` of the validation loop, and
the `TypeError` Python raises from `PluginManifest(**data)` when a
dataclass field with no default is absent. -/
inductive ManifestError where
  | valueErrorMissing (field : String)
  | typeErrorMissingArg (field : String)
deriving DecidableEq

/-- `PluginManifest(**data)`: `name`…`plugin_class` and `capabilities`
have no dataclass default, so each raises `TypeError` when absent;
`dependencies` and `config_schema` default to `None` and are replaced by
`[]` / `{}` in `__post_init__`; `enabled` defaults to `True`. -/
def mkPluginManifest (d : ManifestData) :
    Except ManifestError PluginManifest :=
  match d.name with
  | none => Except.error (ManifestError.typeErrorMissingArg "name")
  | some name =>
  match d.version with
  | none => Except.error (ManifestError.typeErrorMissingArg "version")
  | some version =>
  match d.description with
  | none => Except.error (ManifestError.typeErrorMissingArg "description")
  | some description =>
  match d.author with
  | none => Except.error (ManifestError.typeErrorMissingArg "author")
  | some author =>
  match d.plugin_class with
  | none => Except.error (ManifestError.typeErrorMissingArg "plugin_class")
  | some plugin_class =>
  match d.capabilities with
  | none => Except.error (ManifestError.typeErrorMissingArg "capabilities")
  | some capabilities =>
      Except.ok
        { name := name, version := version, description := description,
          author := author, plugin_class := plugin_class,
          capabilities := capabilities,
          dependencies := d.dependencies.getD [],
          config_schema := d.config_schema.getD [],
          enabled := d.enabled.getD true }

/-- `PluginLoader._load_manifest` after the JSON parse: check the five
required fields in order, raising `ValueError` on the first one missing,
then construct `PluginManifest(**data)`. -/
def load_manifest (d : ManifestData) : Except ManifestError PluginManifest :=
  if d.name.isNone then
    Except.error (ManifestError.valueErrorMissing "name")
  else if d.version.isNone then
    Except.error (ManifestError.valueErrorMissing "version")
  else if d.description.isNone then
    Except.error (ManifestError.valueErrorMissing "description")
  else if d.author.isNone then
    Except.error (ManifestError.valueErrorMissing "author")
  else if d.plugin_class.isNone then
    Except.error (ManifestError.valueErrorMissing "plugin_class")
  else
    mkPluginManifest d

end plugin_loader

/-! ### Concrete scenarios used by the theorems -/

namespace task_queue

/-- Two `NORMAL`-priority tasks submitted at the same clock reading
(`time.time()` returned `100` for both, the submissions falling within the
clock resolution), `cexA` first. -/
def cexA : Task :=
  ⟨NORMAL, 100, "A", fun _ => Except.error "x", 0, 0, 1, false, false⟩

/-- Second equal-priority task with the identical timestamp. -/
def cexB : Task :=
  ⟨NORMAL, 100, "B", fun _ => Except.error "x", 0, 0, 1, false, false⟩

/-- A later `CRITICAL` submission; popping it rearranges the heap. -/
def cexC : Task :=
  ⟨CRITICAL, 100, "C", fun _ => Except.error "x", 0, 0, 1, false, false⟩

/-- Equal-priority tasks whose clock readings differ: `ordA` at `100`. -/
def ordA : Task :=
  ⟨NORMAL, 100, "A2", fun _ => Except.error "x", 0, 0, 1, false, false⟩

/-- Equal-priority task submitted later, at clock reading `105`. -/
def ordB : Task :=
  ⟨NORMAL, 105, "B2", fun _ => Except.error "x", 0, 0, 1, false, false⟩

/-- A `CRITICAL` task submitted last, at clock reading `110`. -/
def ordC : Task :=
  ⟨CRITICAL, 110, "C2", fun _ => Except.error "x", 0, 0, 1, false, false⟩

/-- A task whose work raises on every call, with `max_retries = m` and an
`error_callback` installed. -/
def alwaysFail (m : ℕ) : Task :=
  ⟨NORMAL, 100, "t1", fun _ => Except.error "boom", m, 0, 1, false, true⟩

/-- A task whose work raises on the first attempt and returns `5` on the
second, with `max_retries = 2` and both callbacks installed. -/
def failThenOk : Task :=
  ⟨NORMAL, 100, "t1",
   fun attempt => if attempt = 0 then Except.error "boom" else Except.ok 5,
   2, 0, 1, true, true⟩

/-- The scenario of the spec's testable property: work that raises on
every call, `max_retries = 2`, `retry_delay_base = b`. -/
def c7task (b : ℚ) : Task :=
  ⟨NORMAL, 100, "t1", fun _ => Except.error "boom", 2, 0, b, false, false⟩

/-- A task whose work returns `7` immediately, no retries. -/
def okTask : Task :=
  ⟨NORMAL, 100, "t1", fun _ => Except.ok 7, 0, 0, 1, false, false⟩

/-- A stored result used to exercise the present-record case of
`get_result`. -/
def resEx : TaskResult := ⟨"t1", true, some 7, none, 0⟩

end task_queue

namespace plugin_loader

/-- A manifest whose capability set contains `"cap"`. -/
def manC4 : PluginManifest :=
  ⟨"p", "1.0.0", "d", "a", "plugin.P", ["cap"], [], [], true⟩

/-- A loaded, enabled instance whose class does not override
`get_capabilities`, so the `BasePlugin` default returns `[]`. -/
def instC4 : PluginInstance := ⟨true, [], false⟩

/-- Loader state: `"p"` discovered with manifest capability `"cap"` and
currently loaded and enabled, its instance reporting no capabilities. -/
def stC4 : LoaderState := ⟨[("p", manC4)], [("p", instC4)]⟩

/-- A loaded instance whose `shutdown()` raises. -/
def instRaises : PluginInstance := ⟨true, [], true⟩

/-- Loader state with the raising-shutdown plugin loaded. -/
def stC5 : LoaderState := ⟨[], [("p", instRaises)]⟩

/-- A loaded instance whose `shutdown()` completes normally. -/
def instOk : PluginInstance := ⟨true, ["cap"], false⟩

/-- Loader state with the well-behaved plugin loaded under `"q"`. -/
def stC5ok : LoaderState := ⟨[], [("q", instOk)]⟩

/-- A manifest object holding exactly the five required keys and no
optional one. -/
def dC6 : ManifestData :=
  ⟨some "p", some "1.0.0", some "d", some "a", some "plugin.P",
   none, none, none, none⟩

/-- The same manifest object with `capabilities` additionally present. -/
def dC6full : ManifestData :=
  ⟨some "p", some "1.0.0", some "d", some "a", some "plugin.P",
   some ["cap"], none, none, none⟩

/-- Manifest of plugin `A`: no dependencies. -/
def manA : PluginManifest := ⟨"A", "1", "d", "a", "pa.A", [], [], [], true⟩

/-- Manifest of plugin `B`: depends on `A`. -/
def manB : PluginManifest := ⟨"B", "1", "d", "a", "pb.B", [], ["A"], [], true⟩

/-- Import environment in which both implementation references resolve to
classes that import, instantiate and initialize successfully. -/
def classesC8 : String → Option PluginClass := fun s =>
  if s = "pa.A" || s = "pb.B" then some ⟨true, [], false⟩ else none

/-- Loader state after discovering `A` and `B`, before any load. -/
def stC8 : LoaderState := ⟨[("A", manA), ("B", manB)], []⟩

end plugin_loader

/-! ### Helper lemmas -/

namespace task_queue

/-- Evaluation of one worker iteration on a singleton queue when the
attempt fails and a retry remains: the task is re-queued with
`retry_count` incremented, the worker sleeps the exponential-backoff
delay, the intermediate failed result is stored, the id leaves the
pending map, and the error callback fires when installed. -/
theorem workerStep_single_retry (p : List (String × Task))
    (c : List (String × TaskResult)) (i : Option Task) (e : List Ev) (a : ℕ)
    (t : Task) (s : String) (hf : t.func = fun _ => Except.error s)
    (hlt : t.retry_count < t.max_retries) :
    workerStep ⟨[t], p, c, i, e, a⟩ =
      ⟨[{ t with retry_count := t.retry_count + 1 }],
       removeA p t.task_id,
       setA c t.task_id ⟨t.task_id, false, none, some s, t.retry_count + 1⟩,
       none,
       e ++ [Ev.sleep (t.retry_delay * 2 ^ (t.retry_count + 1 - 1))] ++
         (if t.error_callback then [Ev.errorCb t.task_id (some s)] else []),
       a + 1⟩ := by
  simp [workerStep, workerTake, workerFinish, heappop, popLast, executeTask,
    hf, hlt, heappush, siftdown, lset]

/-- Evaluation of one worker iteration on a singleton queue when the
attempt fails with no retry remaining: the terminal failed result is
stored and the error callback fires when installed. -/
theorem workerStep_single_terminal_fail (p : List (String × Task))
    (c : List (String × TaskResult)) (i : Option Task) (e : List Ev) (a : ℕ)
    (t : Task) (s : String) (hf : t.func = fun _ => Except.error s)
    (hge : ¬ t.retry_count < t.max_retries) :
    workerStep ⟨[t], p, c, i, e, a⟩ =
      ⟨[],
       removeA p t.task_id,
       setA c t.task_id ⟨t.task_id, false, none, some s, t.retry_count⟩,
       none,
       e ++ (if t.error_callback then [Ev.errorCb t.task_id (some s)] else []),
       a + 1⟩ := by
  simp [workerStep, workerTake, workerFinish, heappop, popLast, executeTask,
    hf, hge]

/-- Running the worker loop on a single always-raising task with an error
callback and `k` retries left fires the error callback once per attempt:
`k + 1` more invocations appear in the trace. -/
theorem runQueue_alwaysFail_errCount : ∀ (k : ℕ) (st : QState) (t : Task)
    (s : String),
    st.heap = [t] →
    t.func = (fun _ => Except.error s) →
    t.error_callback = true →
    t.max_retries = t.retry_count + k →
    countErrorCb (runQueue (k + 1) st).events = countErrorCb st.events + (k + 1)
  | 0, st, t, s, hh, hf, he, hm => by
    obtain ⟨heap, p, c, i, e, a⟩ := st
    simp only at hh
    subst hh
    have hge : ¬ t.retry_count < t.max_retries := by omega
    simp only [runQueue, workerStep_single_terminal_fail p c i e a t s hf hge,
      he, if_true]
    simp [countErrorCb, List.countP_append]
  | k + 1, st, t, s, hh, hf, he, hm => by
    obtain ⟨heap, p, c, i, e, a⟩ := st
    simp only at hh
    subst hh
    have hlt : t.retry_count < t.max_retries := by omega
    have hstep := workerStep_single_retry p c i e a t s hf hlt
    have h2 : runQueue (k + 1 + 1) ⟨[t], p, c, i, e, a⟩ =
        runQueue (k + 1) (workerStep ⟨[t], p, c, i, e, a⟩) := rfl
    rw [h2, hstep]
    rw [runQueue_alwaysFail_errCount k _
      { t with retry_count := t.retry_count + 1 } s
      rfl (by simpa using hf) (by simpa using he) (by simp; omega)]
    simp [countErrorCb, List.countP_append, he]
    omega

end task_queue

namespace plugin_loader

/-- The accumulator loop of `get_plugins_by_capability` appends, in
order, exactly the enabled instances whose reported capability list
contains the capability. -/
theorem matchingLoop_spec : ∀ (items : List (String × PluginInstance))
    (cap : String) (acc : List PluginInstance),
    matchingLoop items cap acc =
      acc ++ (items.filter fun e =>
          e.2.enabled && decide (cap ∈ e.2.caps)).map Prod.snd
  | [], cap, acc => by simp [matchingLoop]
  | (n, pl) :: rest, cap, acc => by
    cases hen : pl.enabled with
    | false => simp [matchingLoop, hen, matchingLoop_spec rest cap acc]
    | true =>
      by_cases hc : cap ∈ pl.caps
      · simp [matchingLoop, hen, hc, matchingLoop_spec rest cap (acc ++ [pl])]
      · simp [matchingLoop, hen, hc, matchingLoop_spec rest cap acc]

end plugin_loader

/-! ### Claims about the task queue -/

namespace task_queue

/-- Claim C1, counterexample.  Three submissions at the same clock
reading: `cexA` then `cexB` (equal `NORMAL` priority, identical
`created_at = 100` because both calls fell within the clock resolution),
then the `CRITICAL` task `cexC`.  All three are in the queue
simultaneously, yet extraction order is `C, B, A`: `cexB` is dequeued
before the earlier-submitted `cexA`, refuting the claimed FIFO tie-break;
the keys tie exactly because the tie-break component is the wall-clock
`created_at`, not a monotonic sequence counter. -/
theorem C1_counterexample :
    popAll 3 (submit (submit (submit initQ cexA) cexB) cexC).heap =
      ["C", "B", "A"] ∧
    cexA.priority = cexB.priority ∧
    cexA.created_at = cexB.created_at ∧
    cexA.task_id = "A" ∧ cexB.task_id = "B" := by
  decide

/-- Claim C1, amended.  The ordering key's tie-break component is the
wall-clock `created_at` timestamp, not a sequence counter: among equal
priority, the task comparison used by the heap holds exactly when the
`created_at` reading is strictly earlier, so equal-priority tasks whose
timestamps differ are extracted in submission order (concrete run:
submissions `A2, B2, C2` at increasing clock readings extract as
`C2, A2, B2`), while two submissions within the clock's resolution
receive identical keys and may be dequeued out of submission order. -/
theorem C1_amended :
    (∀ a b : Task, a.priority = b.priority →
        (taskLTb a b = true ↔ a.created_at < b.created_at)) ∧
    popAll 3 (submit (submit (submit initQ ordA) ordB) ordC).heap =
      ["C2", "A2", "B2"] := by
  refine ⟨fun a b h => ?_, by decide⟩
  simp [taskLTb, h]

/-- Claim C1, witness for the amended theorem at the concrete
equal-priority tasks `ordA`, `ordB`. -/
theorem C1_amended_witness :
    taskLTb ordA ordB = true ↔ ordA.created_at < ordB.created_at :=
  C1_amended.1 ordA ordB rfl

/-- Claim C2.  With the default `timeout=None` and no stored record,
`get_result` never returns: for every number of polling iterations and
every elapsed time, the loop is still running (divergence from the claim
that the default returns immediately with the not-available signal).
When a record is present the first iteration returns it, and with
`wait_timeout = 0` the first iteration returns the not-available signal
`None`: the loop only blocks indefinitely in the default-and-absent
case. -/
theorem C2_get_result_default_blocks :
    (∀ (fuel : ℕ) (elapsed : ℚ),
        getResultLoop [] "t1" none elapsed fuel = none) ∧
    getResultLoop [("t1", resEx)] "t1" none 0 1 = some (some resEx) ∧
    getResultLoop [] "t1" (some 0) 0 1 = some none := by
  refine ⟨fun fuel => ?_, by decide, by decide⟩
  induction fuel with
  | zero => intro e; rfl
  | succ n ih => intro e; simpa [getResultLoop, lookupA] using ih (e + 1 / 10)

/-- Claim C3, counterexample.  A task with `max_retries = 1`, an
`error_callback`, and work that raises on every call: the run terminates
(queue drained, terminal failed result stored), and the error callback
has fired twice — once on the intermediate attempt that was retried and
once on the terminal failure — not exactly once as claimed. -/
theorem C3_counterexample :
    countErrorCb (runQueue 2 (submit initQ (alwaysFail 1))).events = 2 ∧
    (runQueue 2 (submit initQ (alwaysFail 1))).heap.length = 0 ∧
    lookupA (runQueue 2 (submit initQ (alwaysFail 1))).completed "t1" =
      some ⟨"t1", false, none, some "boom", 1⟩ := by
  decide

/-- Claim C3, amended.  The worker fires `on_error` once per failed
attempt, intermediate retried attempts included: an always-failing task
with `max_retries = m` invokes it `m + 1` times.  `on_success` fires
exactly once, on the successful terminal attempt (concrete run: a task
failing once then succeeding fires the success callback once and the
error callback once, for the intermediate failure). -/
theorem C3_amended :
    (∀ m : ℕ,
        countErrorCb (runQueue (m + 1) (submit initQ (alwaysFail m))).events =
          m + 1) ∧
    countSuccessCb (runQueue 3 (submit initQ failThenOk)).events = 1 ∧
    countErrorCb (runQueue 3 (submit initQ failThenOk)).events = 1 := by
  refine ⟨fun m => ?_, by decide, by decide⟩
  have h := runQueue_alwaysFail_errCount m (submit initQ (alwaysFail m))
    (alwaysFail m) "boom" rfl rfl rfl (by simp [alwaysFail])
  simpa [submit, initQ, countErrorCb] using h

/-- Claim C7.  For a task with `max_retries = 2` and work that raises on
every call, and any `retry_delay_base = b`: exactly 3 execution attempts
occur, the final stored result has `success = false` and
`retry_count = 2`, the worker slept `b` before the first re-attempt and
`2 * b` before the second (`b * 2 ^ r` for pre-increment retry count
`r`), and the queue is drained (no further attempt). -/
theorem C7_retry_backoff (b : ℚ) :
    (runQueue 3 (submit initQ (c7task b))).attempts = 3 ∧
    lookupA (runQueue 3 (submit initQ (c7task b))).completed "t1" =
      some ⟨"t1", false, none, some "boom", 2⟩ ∧
    sleepsOf (runQueue 3 (submit initQ (c7task b))).events = [b, 2 * b] ∧
    (runQueue 3 (submit initQ (c7task b))).heap = [] := by
  simp [runQueue, workerStep, workerTake, workerFinish, heappop, popLast,
    executeTask, heappush, siftdown, lset, submit, initQ, c7task, setA,
    removeA, lookupA, sleepsOf]
  ring

/-- Claim C9.  After `submit` and the worker's `queue.get` the task has
started running (it is the worker's in-flight task and has left the
queue), yet `cancel_task` still returns `True` for it — because the id
is only removed from `pending_tasks` when a result is stored, not when
execution starts — and the task nevertheless runs to completion with its
result stored.  This contradicts the claim (and the method's own
docstring) that cancellation succeeds only for tasks that have not yet
started running. -/
theorem C9_cancel_inflight :
    (workerTake (submit initQ okTask)).heap.length = 0 ∧
    ((workerTake (submit initQ okTask)).inFlight.map Task.task_id) =
      some "t1" ∧
    (cancel_task (workerTake (submit initQ okTask)) "t1").1 = true ∧
    lookupA (workerFinish
        (cancel_task (workerTake (submit initQ okTask)) "t1").2).completed
        "t1" =
      some ⟨"t1", true, some 7, none, 0⟩ := by
  decide

/-- Claim C10.  `cancel_task` mutates only the pending map: the heap
backing the priority queue, the completed map, the in-flight slot and
the event trace are unchanged for every state and id.  Consequently a
task that was already enqueued when cancelled (cancellation reporting
`True`) is still extracted and executed by the worker, and its
`TaskResult` is stored in the completed map. -/
theorem C10_cancel_frame :
    (∀ (st : QState) (tid : String),
        (cancel_task st tid).2.heap = st.heap ∧
        (cancel_task st tid).2.completed = st.completed ∧
        (cancel_task st tid).2.inFlight = st.inFlight ∧
        (cancel_task st tid).2.events = st.events) ∧
    (cancel_task (submit initQ okTask) "t1").1 = true ∧
    lookupA (workerStep
        (cancel_task (submit initQ okTask) "t1").2).completed "t1" =
      some ⟨"t1", true, some 7, none, 0⟩ := by
  refine ⟨fun st tid => ?_, by decide, by decide⟩
  unfold cancel_task
  split <;> simp

end task_queue

/-! ### Claims about the plugin loader -/

namespace plugin_loader

/-- Claim C4, counterexample.  Plugin `p` is loaded and enabled and its
manifest capability set contains `"cap"`, yet `get_plugins_by_capability`
returns the empty list: the method consults the instance's
`get_capabilities()` (here the `BasePlugin` default `[]`), never the
manifest, so the claim's manifest-based description fails and differs
from the spec-worded `providers_for_spec`. -/
theorem C4_counterexample :
    get_plugins_by_capability stC4 "cap" = [] ∧
    lookupA stC4.plugins "p" = some instC4 ∧
    instC4.enabled = true ∧
    lookupA stC4.manifests "p" = some manC4 ∧
    "cap" ∈ manC4.capabilities ∧
    get_plugins_by_capability stC4 "cap" ≠ providers_for_spec stC4 "cap" := by
  decide

/-- Claim C4, amended.  `providers_for(capability)` returns, in load
order, exactly those instances that are currently loaded and enabled and
whose instance-reported capability list (`get_capabilities()`) contains
the capability; the manifest capability set is not consulted.  A
loaded-but-disabled or unloaded instance is never returned. -/
theorem C4_amended (st : LoaderState) (capability : String) :
    get_plugins_by_capability st capability =
      (st.plugins.filter fun e =>
          e.2.enabled && decide (capability ∈ e.2.caps)).map Prod.snd := by
  simpa using matchingLoop_spec st.plugins capability []

/-- Claim C5, counterexample.  Plugin `p` is loaded and its shutdown hook
raises: `unload_plugin` catches the exception and returns the failure
signal, but the instance is NOT removed from the active set — the
`del` statement sits after the hook call inside the `try` block — so the
claimed removal regardless of hook outcome fails. -/
theorem C5_counterexample :
    unload_plugin stC5 "p" = (false, stC5) ∧
    lookupA (unload_plugin stC5 "p").2.plugins "p" = some instRaises := by
  decide

/-- Claim C5, amended.  `unload` fails exactly when the name is not
active or the shutdown hook raises; the hook's exception is caught and
never propagated (the embedded call is total), but on a raising hook the
instance stays in the active set: removal happens only when the hook
completes normally. -/
theorem C5_amended (st : LoaderState) (name : String) :
    (lookupA st.plugins name = none → unload_plugin st name = (false, st)) ∧
    (∀ p, lookupA st.plugins name = some p → p.shutdownRaises = false →
      unload_plugin st name =
        (true, { st with plugins := removeA st.plugins name })) ∧
    (∀ p, lookupA st.plugins name = some p → p.shutdownRaises = true →
      unload_plugin st name = (false, st)) := by
  refine ⟨fun h => ?_, fun p hp hr => ?_, fun p hp hr => ?_⟩
  · simp [unload_plugin, h]
  · simp [unload_plugin, hp, hr]
  · simp [unload_plugin, hp, hr]

/-- Claim C5, witness for the amended theorem: at `stC5ok` the loaded
plugin `q` has a well-behaved hook, so unload succeeds and removes it. -/
theorem C5_amended_witness :
    unload_plugin stC5ok "q" =
      (true, { stC5ok with plugins := removeA stC5ok.plugins "q" }) :=
  (C5_amended stC5ok "q").2.1 instOk (by decide) (by decide)

/-- Claim C6.  A manifest holding all five required keys but omitting
`capabilities` passes the explicit required-field validation yet is
rejected: `PluginManifest(**data)` raises `TypeError` because the
`capabilities` dataclass field has no default — the claim (and the
spec, and the validation loop's own required-field list) say it should
be accepted with `capabilities = []`.  With `capabilities` present, the
remaining optional keys do default to `[]`, `{}` and `True`. -/
theorem C6_missing_capabilities_rejected :
    load_manifest dC6 =
      Except.error (ManifestError.typeErrorMissingArg "capabilities") ∧
    load_manifest dC6full =
      Except.ok ⟨"p", "1.0.0", "d", "a", "plugin.P", ["cap"], [], [], true⟩ :=
  ⟨rfl, rfl⟩

/-- Claim C8.  Loading a discovered-but-unloaded plugin one of whose
manifest dependencies is not in the active set fails with the
missing-dependency outcome and leaves the loader state unchanged
(checked at call time against the current active set); concretely, with
`B` depending on `A`, `load("B")` fails first, while `load("A")` and
then `load("B")` both succeed. -/
theorem C8_missing_dependency :
    (∀ (classes : String → Option PluginClass) (st : LoaderState)
        (name : String) (m : PluginManifest) (dep : String),
      lookupA st.plugins name = none →
      lookupA st.manifests name = some m →
      dep ∈ m.dependencies →
      lookupA st.plugins dep = none →
      load_plugin classes st name = (LoadOutcome.missingDependency, st)) ∧
    load_plugin classesC8 stC8 "B" = (LoadOutcome.missingDependency, stC8) ∧
    (load_plugin classesC8 stC8 "A").1 = LoadOutcome.ok ∧
    (load_plugin classesC8 (load_plugin classesC8 stC8 "A").2 "B").1 =
      LoadOutcome.ok := by
  refine ⟨fun classes st name m dep h1 h2 h3 h4 => ?_, by decide, by decide,
    by decide⟩
  have hchk : check_dependencies st m.dependencies = false := by
    simp only [check_dependencies, List.all_eq_false]
    exact ⟨dep, h3, by simp [h4]⟩
  simp [load_plugin, h1, h2, hchk]

/-- Claim C8, witness: the general missing-dependency half applied to
the concrete state `stC8` with `B` depending on the not-loaded `A`. -/
theorem C8_missing_dependency_witness :
    load_plugin classesC8 stC8 "B" = (LoadOutcome.missingDependency, stC8) :=
  C8_missing_dependency.1 classesC8 stC8 "B" manB "A" rfl (by decide)
    (by decide) rfl

end plugin_loader
